import Mathlib

/-!
Verification development for the pump-calibration module
(src/src/programs/calibration.py of CocktailBerry).

The numeric state of the screen is embedded over the rationals.  Every
definition below is a direct translation of the corresponding Python
function; UI widgets appear as the fields of the screen state that the
handlers read or write (text of the amount inputs, visibility and enabled
flags of the buttons, label texts).  Division by zero, which Python
surfaces as a ZeroDivisionError caught by the handler, is modelled by an
explicit zero test on the corresponding branch.
-/

namespace Calibration

/-- Flow rate validation constants (module constants, calibration.py lines 20-23). -/
def MIN_FLOW_RATE : ℚ := 1/10

/-- Upper absolute flow-rate bound, ml/s. -/
def MAX_FLOW_RATE : ℚ := 1000

/-- Warn if calculated flow is above 300 percent of original. -/
def MAX_DEVIATION_RATIO : ℚ := 3

/-- Warn if calculated flow is below 50 percent of original. -/
def MIN_DEVIATION_RATIO : ℚ := 1/2

/-- Tracks the workflow state of the calibration process (enum CalibrationState). -/
inductive CalibrationState where
  | PRE_DISPENSE
  | POST_DISPENSE
deriving DecidableEq

/-- Text shown by the calculated_flow_rate label: either the placeholder
"-- ml/s" or a concrete value formatted to two decimals. -/
inductive FlowText where
  | dashes
  | value (q : ℚ)
deriving DecidableEq

/-- Text shown by the warning_label, abstracted over the translated strings. -/
inductive WarningText where
  | empty
  | flowRateOutOfBounds
  | flowRateUnrealistic
deriving DecidableEq

/-- Classification of a corrected flow rate, as named by the spec
(Valid, OutOfBounds, UnrealisticDeviation). -/
inductive FlowStatus where
  | Valid
  | OutOfBounds
  | UnrealisticDeviation
deriving DecidableEq

/-- calculate_corrected_flow_rate (calibration.py lines 276-290): the pure
flow-rate correction.  Zero actual amount returns the current flow unchanged;
otherwise the current flow is scaled by target over actual. -/
def calculate_corrected_flow_rate (current_flow target_ml actual_ml : ℚ) : ℚ :=
  if actual_ml = 0 then current_flow
  else current_flow * (target_ml / actual_ml)

/-- Round a rational to the nearest integer, ties to even, translating the
rounding mode of the Python built-in round. -/
def pyRoundInt (q : ℚ) : ℤ :=
  let f := Rat.floor q
  if q - f < 1/2 then f
  else if (1:ℚ)/2 < q - f then f + 1
  else if f % 2 = 0 then f else f + 1

/-- round(x, 2) of Python (calibration.py line 235): round to two decimal
places, ties to even. -/
def pyRound2 (q : ℚ) : ℚ :=
  (pyRoundInt (q * 100) : ℚ) / 100

/-- The classification performed inline by on_actual_amount_changed
(calibration.py lines 242-255), extracted as the classify operation of the
spec.  First the absolute bounds check; then, only if it passed, the relative
deviation check on calcFlow / current.  A zero current flow on the deviation
branch raises ZeroDivisionError in Python, modelled as none. -/
def classify (calcFlow current : ℚ) : Option FlowStatus :=
  if calcFlow < MIN_FLOW_RATE ∨ MAX_FLOW_RATE < calcFlow then
    some FlowStatus.OutOfBounds
  else if current = 0 then
    none
  else if MAX_DEVIATION_RATIO < calcFlow / current ∨ calcFlow / current < MIN_DEVIATION_RATIO then
    some FlowStatus.UnrealisticDeviation
  else
    some FlowStatus.Valid

/-- State of a CalibrationScreen: the fields of the Python object together
with the widget state the calibration handlers read or write.  The target
amount field holds an integer (its plus and minus buttons step it by 10 and
output_volume parses it with int), the actual amount field a rational.
Visibility of the actual-amount controls coincides with the POST_DISPENSE
state and is not duplicated here. -/
structure CalibrationScreen where
  standalone : Bool
  pump_mode : Bool
  pump_index : Option ℕ
  current_flow_rate : ℚ
  pin : ℕ
  calculated_flow : ℚ
  state : CalibrationState
  amount : ℤ
  actual_amount : ℚ
  start_visible : Bool
  accept_visible : Bool
  accept_enabled : Bool
  flow_text : FlowText
  warning : WarningText
deriving DecidableEq

/-- The falsy-or coercion of the constructor line
current_flow_rate or 30.0: None and 0.0 both become 30.0, every other
value (negative included) passes through. -/
def pyOrDefault (arg : Option ℚ) (dflt : ℚ) : ℚ :=
  match arg with
  | none => dflt
  | some x => if x = 0 then dflt else x

/-- CalibrationScreen.__init__ (calibration.py lines 34-107).  pump_mode is
pump_index is not None; current_flow_rate gets the falsy-or default 30.0;
calculated_flow starts at 0.0 and state at PRE_DISPENSE.  The accept button
starts hidden (the post-dispense widgets are hidden by _hide_post_dispense_ui)
but, as a Qt widget, enabled; the dispense button is visible.  The
calculated-flow label is set to the placeholder by _apply_translations.
The initial texts of the amount and actual-amount inputs and of the
warning_label come from the ui file and are taken as parameters. -/
def CalibrationScreen.init (pump_index : Option ℕ) (current_flow_rate : Option ℚ)
    (pin : Option ℕ) (standalone : Bool) (amount0 : ℤ) (actual0 : ℚ)
    (warning0 : WarningText) : CalibrationScreen :=
  { standalone := standalone
    pump_mode := pump_index.isSome
    pump_index := pump_index
    current_flow_rate := pyOrDefault current_flow_rate 30
    pin := pin.getD 0
    calculated_flow := 0
    state := CalibrationState.PRE_DISPENSE
    amount := amount0
    actual_amount := actual0
    start_visible := true
    accept_visible := false
    accept_enabled := true
    flow_text := FlowText.dashes
    warning := warning0 }

/-- _show_invalid_flow_rate (calibration.py lines 269-274): reset the
calculated-flow label to the placeholder, set the warning text when one is
given (an empty argument leaves the label untouched), disable accept. -/
def show_invalid_flow_rate (warning_text : Option WarningText)
    (s : CalibrationScreen) : CalibrationScreen :=
  { s with
    flow_text := FlowText.dashes
    warning := match warning_text with
      | some w => w
      | none => s.warning
    accept_enabled := false }

/-- The value stored into self.calculated_flow at calibration.py line 235:
the corrected flow rate computed from the current screen fields, rounded to
two decimals. -/
def computedFlow (s : CalibrationScreen) : ℚ :=
  pyRound2 (calculate_corrected_flow_rate s.current_flow_rate (s.amount : ℚ) s.actual_amount)

/-- on_actual_amount_changed (calibration.py lines 217-267).  Rejects a
non-positive actual amount before computing anything; otherwise stores the
rounded corrected flow rate, then runs the absolute bounds check, then the
deviation check (whose division raises ZeroDivisionError, caught at line 263,
when the current flow rate is zero), and on success displays the value,
sets or clears the warning and enables accept.  The ValueError branch of the
Python try block concerns unparsable widget text and has no counterpart here
because the fields are already numbers. -/
def on_actual_amount_changed (s : CalibrationScreen) : CalibrationScreen :=
  if s.actual_amount ≤ 0 then
    show_invalid_flow_rate (some WarningText.flowRateOutOfBounds) s
  else
    let calcFlow := computedFlow s
    let s1 := { s with calculated_flow := calcFlow }
    if calcFlow < MIN_FLOW_RATE ∨ MAX_FLOW_RATE < calcFlow then
      show_invalid_flow_rate (some WarningText.flowRateOutOfBounds)
        { s1 with flow_text := FlowText.value calcFlow }
    else if s.current_flow_rate = 0 then
      show_invalid_flow_rate none s1
    else
      let ratio := calcFlow / s.current_flow_rate
      { s1 with
        warning :=
          if MAX_DEVIATION_RATIO < ratio ∨ ratio < MIN_DEVIATION_RATIO then
            WarningText.flowRateUnrealistic
          else WarningText.empty
        flow_text := FlowText.value calcFlow
        accept_enabled := true }

/-- output_volume (calibration.py lines 156-165) together with
_switch_to_post_dispense_ui (lines 167-195): dispense the target amount
(the call into the maker is an external actuator), move to POST_DISPENSE,
hide the dispense button in pump mode (keep it in standalone mode), show the
accept button only in pump mode, preset the actual amount to the target and
recompute via on_actual_amount_changed. -/
def output_volume (s : CalibrationScreen) : CalibrationScreen :=
  let s1 := { s with
    state := CalibrationState.POST_DISPENSE
    start_visible := !s.pump_mode
    accept_visible := s.pump_mode
    actual_amount := (s.amount : ℚ) }
  on_actual_amount_changed s1

/-- One entry of cfg.PUMP_CONFIG, reduced to the field the calibration
module writes.  The class itself lives outside this excerpt. -/
structure PumpConfig where
  volume_flow : ℚ
deriving DecidableEq

/-- The mutation pump_configs[i].volume_flow = v (calibration.py line 312). -/
def setVolumeFlow : List PumpConfig → ℕ → ℚ → List PumpConfig
  | [], _, _ => []
  | c :: cs, 0, v => { c with volume_flow := v } :: cs
  | c :: cs, n + 1, v => c :: setVolumeFlow cs n v

/-- Observable outcome of accept_calibration: the not-pump-mode error box,
the caught IndexError box, or a successful save. -/
inductive AcceptOutcome where
  | errorNotPumpMode
  | errorIndexOutOfRange
  | accepted
deriving DecidableEq

/-- accept_calibration (calibration.py lines 292-335): refuse outside pump
mode; raise (and catch) IndexError when pump_index is not below the number of
configured pumps, before any mutation; otherwise write calculated_flow into
the selected pump configuration.  Saving to file and the accept callback are
external effects. -/
def accept_calibration (s : CalibrationScreen) (pump_configs : List PumpConfig) :
    List PumpConfig × AcceptOutcome :=
  if s.pump_mode = false ∨ s.pump_index = none then
    (pump_configs, AcceptOutcome.errorNotPumpMode)
  else
    match s.pump_index with
    | none => (pump_configs, AcceptOutcome.errorNotPumpMode)
    | some i =>
      if pump_configs.length ≤ i then
        (pump_configs, AcceptOutcome.errorIndexOutOfRange)
      else
        (setVolumeFlow pump_configs i s.calculated_flow, AcceptOutcome.accepted)

/-- The user interactions reachable through the calibration window:
changing the target amount (its controls are visible only before
dispensing), clicking the dispense button, and entering an actual amount
(its controls appear only after dispensing, and every change triggers
on_actual_amount_changed). -/
inductive Action where
  | setAmount (v : ℤ)
  | dispense
  | recordActual (v : ℚ)

/-- Guarded transition function of the screen: an action is available only
while its button is visible.  Clicks on accept do not change the screen
state tracked here (accept_calibration writes the pump configuration). -/
def step (s : CalibrationScreen) : Action → Option CalibrationScreen
  | Action.setAmount v =>
    if s.state = CalibrationState.PRE_DISPENSE then
      some { s with amount := v }
    else none
  | Action.dispense =>
    if s.start_visible then some (output_volume s) else none
  | Action.recordActual v =>
    if s.state = CalibrationState.POST_DISPENSE then
      some (on_actual_amount_changed { s with actual_amount := v })
    else none

/-- Screens reachable from a freshly constructed calibration window by user
interactions. -/
inductive Reachable : CalibrationScreen → Prop
  | init (pump_index : Option ℕ) (current_flow_rate : Option ℚ) (pin : Option ℕ)
      (standalone : Bool) (amount0 : ℤ) (actual0 : ℚ) (warning0 : WarningText) :
      Reachable (CalibrationScreen.init pump_index current_flow_rate pin standalone
        amount0 actual0 warning0)
  | step (s : CalibrationScreen) (a : Action) (s' : CalibrationScreen) :
      Reachable s → step s a = some s' → Reachable s'

/-- The warning text produced for a given classification outcome: empty for
Valid, the unrealistic warning for UnrealisticDeviation, the out-of-bounds
warning for OutOfBounds, and the previous text when the classification
raised (show_invalid_flow_rate is then called without a message). -/
def statusWarning (st : Option FlowStatus) (old : WarningText) : WarningText :=
  match st with
  | some FlowStatus.Valid => WarningText.empty
  | some FlowStatus.UnrealisticDeviation => WarningText.flowRateUnrealistic
  | some FlowStatus.OutOfBounds => WarningText.flowRateOutOfBounds
  | none => old

/-- Whether a classification outcome leaves the accept button enabled:
only Valid and UnrealisticDeviation do. -/
def statusEnabled (st : Option FlowStatus) : Bool :=
  match st with
  | some FlowStatus.Valid => true
  | some FlowStatus.UnrealisticDeviation => true
  | some FlowStatus.OutOfBounds => false
  | none => false

/-! ### Branch equations for on_actual_amount_changed -/

lemma handler_eq_of_nonpos {s : CalibrationScreen} (h : s.actual_amount ≤ 0) :
    on_actual_amount_changed s =
      show_invalid_flow_rate (some WarningText.flowRateOutOfBounds) s := by
  rw [on_actual_amount_changed, if_pos h]

lemma handler_eq_of_oob {s : CalibrationScreen} (h1 : ¬ s.actual_amount ≤ 0)
    (h2 : computedFlow s < MIN_FLOW_RATE ∨ MAX_FLOW_RATE < computedFlow s) :
    on_actual_amount_changed s =
      show_invalid_flow_rate (some WarningText.flowRateOutOfBounds)
        { s with calculated_flow := computedFlow s,
                 flow_text := FlowText.value (computedFlow s) } := by
  rw [on_actual_amount_changed, if_neg h1]
  simp only [if_pos h2]

lemma handler_eq_of_zero_current {s : CalibrationScreen} (h1 : ¬ s.actual_amount ≤ 0)
    (h2 : ¬ (computedFlow s < MIN_FLOW_RATE ∨ MAX_FLOW_RATE < computedFlow s))
    (h3 : s.current_flow_rate = 0) :
    on_actual_amount_changed s =
      show_invalid_flow_rate none { s with calculated_flow := computedFlow s } := by
  rw [on_actual_amount_changed, if_neg h1]
  simp only [if_neg h2, if_pos h3]

lemma handler_eq_of_ok {s : CalibrationScreen} (h1 : ¬ s.actual_amount ≤ 0)
    (h2 : ¬ (computedFlow s < MIN_FLOW_RATE ∨ MAX_FLOW_RATE < computedFlow s))
    (h3 : ¬ s.current_flow_rate = 0) :
    on_actual_amount_changed s =
      { s with calculated_flow := computedFlow s,
               warning :=
                 if MAX_DEVIATION_RATIO < computedFlow s / s.current_flow_rate ∨
                     computedFlow s / s.current_flow_rate < MIN_DEVIATION_RATIO then
                   WarningText.flowRateUnrealistic
                 else WarningText.empty,
               flow_text := FlowText.value (computedFlow s),
               accept_enabled := true } := by
  rw [on_actual_amount_changed, if_neg h1]
  simp only [if_neg h2, if_neg h3]

/-- The handler touches only calculated_flow, flow_text, warning and
accept_enabled: every other field is preserved. -/
lemma handler_preserves (s : CalibrationScreen) :
    (on_actual_amount_changed s).standalone = s.standalone ∧
    (on_actual_amount_changed s).pump_mode = s.pump_mode ∧
    (on_actual_amount_changed s).pump_index = s.pump_index ∧
    (on_actual_amount_changed s).current_flow_rate = s.current_flow_rate ∧
    (on_actual_amount_changed s).pin = s.pin ∧
    (on_actual_amount_changed s).state = s.state ∧
    (on_actual_amount_changed s).amount = s.amount ∧
    (on_actual_amount_changed s).actual_amount = s.actual_amount ∧
    (on_actual_amount_changed s).start_visible = s.start_visible ∧
    (on_actual_amount_changed s).accept_visible = s.accept_visible := by
  by_cases h1 : s.actual_amount ≤ 0
  · rw [handler_eq_of_nonpos h1]; simp [show_invalid_flow_rate]
  · by_cases h2 : computedFlow s < MIN_FLOW_RATE ∨ MAX_FLOW_RATE < computedFlow s
    · rw [handler_eq_of_oob h1 h2]; simp [show_invalid_flow_rate]
    · by_cases h3 : s.current_flow_rate = 0
      · rw [handler_eq_of_zero_current h1 h2 h3]; simp [show_invalid_flow_rate]
      · rw [handler_eq_of_ok h1 h2 h3]; simp

/-- Full characterisation of the handler on a positive actual amount: the
stored flow is the freshly computed one and display, warning and accept
follow its classification against the current flow rate. -/
lemma handler_spec {s : CalibrationScreen} (h : 0 < s.actual_amount) :
    (on_actual_amount_changed s).calculated_flow = computedFlow s ∧
    (on_actual_amount_changed s).warning =
      statusWarning (classify (computedFlow s) s.current_flow_rate) s.warning ∧
    (on_actual_amount_changed s).accept_enabled =
      statusEnabled (classify (computedFlow s) s.current_flow_rate) ∧
    (on_actual_amount_changed s).flow_text =
      (if statusEnabled (classify (computedFlow s) s.current_flow_rate) then
        FlowText.value (computedFlow s) else FlowText.dashes) := by
  have h1 : ¬ s.actual_amount ≤ 0 := not_le.mpr h
  by_cases h2 : computedFlow s < MIN_FLOW_RATE ∨ MAX_FLOW_RATE < computedFlow s
  · rw [handler_eq_of_oob h1 h2, classify, if_pos h2]
    simp [show_invalid_flow_rate, statusWarning, statusEnabled]
  · by_cases h3 : s.current_flow_rate = 0
    · rw [handler_eq_of_zero_current h1 h2 h3, classify, if_neg h2, if_pos h3]
      simp [show_invalid_flow_rate, statusWarning, statusEnabled]
    · rw [handler_eq_of_ok h1 h2 h3, classify, if_neg h2, if_neg h3]
      by_cases h4 : MAX_DEVIATION_RATIO < computedFlow s / s.current_flow_rate ∨
          computedFlow s / s.current_flow_rate < MIN_DEVIATION_RATIO
      · simp [if_pos h4, statusWarning, statusEnabled]
      · simp [if_neg h4, statusWarning, statusEnabled]

/-- Whenever the handler leaves the accept button enabled, the flow rate it
stored lies within the absolute bounds. -/
lemma handler_enabled_in_bounds (s : CalibrationScreen)
    (h : (on_actual_amount_changed s).accept_enabled = true) :
    MIN_FLOW_RATE ≤ (on_actual_amount_changed s).calculated_flow ∧
    (on_actual_amount_changed s).calculated_flow ≤ MAX_FLOW_RATE := by
  by_cases h1 : s.actual_amount ≤ 0
  · rw [handler_eq_of_nonpos h1] at h; simp [show_invalid_flow_rate] at h
  · by_cases h2 : computedFlow s < MIN_FLOW_RATE ∨ MAX_FLOW_RATE < computedFlow s
    · rw [handler_eq_of_oob h1 h2] at h; simp [show_invalid_flow_rate] at h
    · by_cases h3 : s.current_flow_rate = 0
      · rw [handler_eq_of_zero_current h1 h2 h3] at h
        simp [show_invalid_flow_rate] at h
      · rw [handler_eq_of_ok h1 h2 h3]
        push_neg at h2
        simpa using h2

/-! ### Facts about the guarded transitions -/

lemma output_volume_state (s : CalibrationScreen) :
    (output_volume s).state = CalibrationState.POST_DISPENSE := by
  unfold output_volume
  exact (handler_preserves _).2.2.2.2.2.1

lemma output_volume_current (s : CalibrationScreen) :
    (output_volume s).current_flow_rate = s.current_flow_rate := by
  unfold output_volume
  exact (handler_preserves _).2.2.2.1

lemma step_current_flow_rate {s s' : CalibrationScreen} {a : Action}
    (h : step s a = some s') : s'.current_flow_rate = s.current_flow_rate := by
  cases a with
  | setAmount v =>
    simp only [step] at h
    split_ifs at h
    injection h with h'; subst h'; rfl
  | dispense =>
    simp only [step] at h
    split_ifs at h
    injection h with h'; subst h'; exact output_volume_current s
  | recordActual v =>
    simp only [step] at h
    split_ifs at h
    injection h with h'; subst h'
    exact (handler_preserves _).2.2.2.1

lemma step_state_post {s s' : CalibrationScreen} {a : Action}
    (h : step s a = some s') (hs : s.state = CalibrationState.POST_DISPENSE) :
    s'.state = CalibrationState.POST_DISPENSE := by
  cases a with
  | setAmount v =>
    simp only [step] at h
    split_ifs at h with hg
    rw [hs] at hg; exact absurd hg (by simp)
  | dispense =>
    simp only [step] at h
    split_ifs at h
    injection h with h'; subst h'; exact output_volume_state s
  | recordActual v =>
    simp only [step] at h
    split_ifs at h
    injection h with h'; subst h'
    rw [(handler_preserves _).2.2.2.2.2.1]
    exact hs

/-- The stored current flow rate of any constructed screen is nonzero: the
falsy-or coercion replaces exactly None and 0.0 by the default 30.0. -/
lemma init_current_flow_rate_ne_zero (pump_index : Option ℕ)
    (current_flow_rate : Option ℚ) (pin : Option ℕ) (standalone : Bool)
    (amount0 : ℤ) (actual0 : ℚ) (warning0 : WarningText) :
    (CalibrationScreen.init pump_index current_flow_rate pin standalone
      amount0 actual0 warning0).current_flow_rate ≠ 0 := by
  show pyOrDefault current_flow_rate 30 ≠ 0
  cases current_flow_rate with
  | none => norm_num [pyOrDefault]
  | some x =>
    by_cases hx : x = 0
    · simp [pyOrDefault, hx]
    · simp [pyOrDefault, hx]

/-- Along every reachable screen the current flow rate stays nonzero, so the
deviation-ratio division of the measurement path never divides by zero. -/
lemma reachable_current_flow_rate_ne_zero {s : CalibrationScreen}
    (h : Reachable s) : s.current_flow_rate ≠ 0 := by
  induction h with
  | init pi cfr pin st a0 ac0 w0 => exact init_current_flow_rate_ne_zero pi cfr pin st a0 ac0 w0
  | step s a s' hr hstep ih => rw [step_current_flow_rate hstep]; exact ih

/-- Safety invariant of the accept button: whenever it is both visible and
enabled, the stored calculated flow lies within the absolute bounds. -/
lemma reachable_accept_safe {s : CalibrationScreen} (h : Reachable s)
    (hv : s.accept_visible = true) (he : s.accept_enabled = true) :
    MIN_FLOW_RATE ≤ s.calculated_flow ∧ s.calculated_flow ≤ MAX_FLOW_RATE := by
  induction h with
  | init pi cfr pin st a0 ac0 w0 => exact absurd hv (by simp [CalibrationScreen.init])
  | step s a s' hr hstep ih =>
    cases a with
    | setAmount v =>
      simp only [step] at hstep
      split_ifs at hstep
      injection hstep with h'; subst h'
      exact ih hv he
    | dispense =>
      simp only [step] at hstep
      split_ifs at hstep
      injection hstep with h'; subst h'
      unfold output_volume at he ⊢
      exact handler_enabled_in_bounds _ he
    | recordActual v =>
      simp only [step] at hstep
      split_ifs at hstep
      injection hstep with h'; subst h'
      exact handler_enabled_in_bounds _ he

/-- Every entry of the configuration after the volume_flow write either was
already present or carries the written value. -/
lemma mem_setVolumeFlow {l : List PumpConfig} {i : ℕ} {v : ℚ} {c : PumpConfig}
    (h : c ∈ setVolumeFlow l i v) : c ∈ l ∨ c.volume_flow = v := by
  induction l generalizing i with
  | nil => simp [setVolumeFlow] at h
  | cons hd tl ih =>
    cases i with
    | zero =>
      rw [setVolumeFlow] at h
      rcases List.mem_cons.mp h with h' | h'
      · right; rw [h']
      · left; exact List.mem_cons_of_mem _ h'
    | succ n =>
      rw [setVolumeFlow] at h
      rcases List.mem_cons.mp h with h' | h'
      · left; rw [h']; exact List.mem_cons_self _ _
      · rcases ih h' with h'' | h''
        · left; exact List.mem_cons_of_mem _ h''
        · right; exact h''

/-! ### Concrete screens used to instantiate the theorems -/

/-- A calibration screen opened in pump mode for pump 0 on pin 17 with a
current flow rate of 30 ml/s and a target amount of 100 ml. -/
def demoInit : CalibrationScreen :=
  CalibrationScreen.init (some 0) (some 30) (some 17) false 100 0 WarningText.empty

/-- The same screen right after the dispense button was pressed. -/
def demoPost : CalibrationScreen := output_volume demoInit

lemma demoInit_step : step demoInit Action.dispense = some demoPost := rfl

lemma demoPost_reachable : Reachable demoPost :=
  Reachable.step demoInit Action.dispense demoPost
    (Reachable.init (some 0) (some 30) (some 17) false 100 0 WarningText.empty)
    demoInit_step

lemma demoPost_state : demoPost.state = CalibrationState.POST_DISPENSE :=
  output_volume_state demoInit

lemma demoPost_eq : demoPost =
    { standalone := false, pump_mode := true, pump_index := some 0,
      current_flow_rate := 30, pin := 17, calculated_flow := 30,
      state := CalibrationState.POST_DISPENSE, amount := 100,
      actual_amount := 100, start_visible := false, accept_visible := true,
      accept_enabled := true, flow_text := FlowText.value 30,
      warning := WarningText.empty } := by
  norm_num [demoPost, demoInit, output_volume, on_actual_amount_changed,
    show_invalid_flow_rate, computedFlow, CalibrationScreen.init, pyOrDefault,
    pyRound2, pyRoundInt, calculate_corrected_flow_rate, Rat.floor,
    MIN_FLOW_RATE, MAX_FLOW_RATE, MAX_DEVIATION_RATIO, MIN_DEVIATION_RATIO]

/-! ### Claims -/

/-- Claim C1: calculate_corrected_flow_rate returns the current flow rate
unchanged when the actual volume is 0 and otherwise returns
currentFlowRate * (targetVolume / actualVolume); being a total function on
the rationals it never throws, and negative inputs propagate through the
same formula into a possibly negative result rather than being rejected. -/
theorem calculate_corrected_flow_rate_contract (f t a : ℚ) :
    (a = 0 → calculate_corrected_flow_rate f t a = f) ∧
    (a ≠ 0 → calculate_corrected_flow_rate f t a = f * (t / a)) := by
  constructor
  · intro h; rw [calculate_corrected_flow_rate, if_pos h]
  · intro h; rw [calculate_corrected_flow_rate, if_neg h]

/-- Witness for C1 at concrete inputs: the zero guard, the scaling formula,
and a negative target propagating into a negative result. -/
theorem calculate_corrected_flow_rate_contract_witness :
    calculate_corrected_flow_rate 30 100 0 = 30 ∧
    calculate_corrected_flow_rate 30 100 50 = 30 * (100 / 50) ∧
    calculate_corrected_flow_rate 30 (-100) 100 = 30 * (-100 / 100) :=
  ⟨(calculate_corrected_flow_rate_contract 30 100 0).1 rfl,
   (calculate_corrected_flow_rate_contract 30 100 50).2 (by norm_num),
   (calculate_corrected_flow_rate_contract 30 (-100) 100).2 (by norm_num)⟩

/-- Claim C3: the absolute bounds check takes precedence over the deviation
check.  A corrected flow rate strictly outside the bounds is classified
OutOfBounds regardless of the current flow rate (so the deviation ratio is
never consulted), the UnrealisticDeviation outcome only arises inside the
bounds, and in the handler the out-of-bounds path sets the out-of-bounds
warning, never the unrealistic-deviation warning. -/
theorem bounds_check_precedes_deviation_check (c cur cur' : ℚ)
    (h : c < MIN_FLOW_RATE ∨ MAX_FLOW_RATE < c) :
    classify c cur = some FlowStatus.OutOfBounds ∧
    classify c cur = classify c cur' ∧
    (∀ d cur2 : ℚ, classify d cur2 = some FlowStatus.UnrealisticDeviation →
      MIN_FLOW_RATE ≤ d ∧ d ≤ MAX_FLOW_RATE) ∧
    (∀ s : CalibrationScreen, 0 < s.actual_amount →
      (computedFlow s < MIN_FLOW_RATE ∨ MAX_FLOW_RATE < computedFlow s) →
      (on_actual_amount_changed s).warning = WarningText.flowRateOutOfBounds ∧
      (on_actual_amount_changed s).warning ≠ WarningText.flowRateUnrealistic ∧
      (on_actual_amount_changed s).accept_enabled = false) := by
  refine ⟨by rw [classify, if_pos h], ?_, ?_, ?_⟩
  · rw [classify, if_pos h, classify, if_pos h]
  · intro d cur2 hd
    rw [classify] at hd
    split_ifs at hd with g1 g2 g3
    · exact absurd hd (by simp)
    · push_neg at g1; exact g1
    · exact absurd hd (by simp)
  · intro s hpos hoob
    rw [handler_eq_of_oob (not_le.mpr hpos) hoob]
    simp [show_invalid_flow_rate]

/-- Witness for C3: at 2000 ml/s the classification is OutOfBounds for any
current flow rate, a concrete in-bounds UnrealisticDeviation value, and a
screen whose computed flow 5000 trips the out-of-bounds warning. -/
theorem bounds_check_precedes_deviation_check_witness :
    classify 2000 30 = some FlowStatus.OutOfBounds ∧
    classify 2000 30 = classify 2000 50 ∧
    (MIN_FLOW_RATE ≤ 200 ∧ (200:ℚ) ≤ MAX_FLOW_RATE) ∧
    (on_actual_amount_changed
        { demoPost with current_flow_rate := 500, actual_amount := 10 }).warning =
      WarningText.flowRateOutOfBounds := by
  have h := bounds_check_precedes_deviation_check 2000 30 50
    (by norm_num [MIN_FLOW_RATE, MAX_FLOW_RATE])
  refine ⟨h.1, h.2.1, ?_, ?_⟩
  · exact h.2.2.1 200 30 (by
      norm_num [classify, MIN_FLOW_RATE, MAX_FLOW_RATE, MAX_DEVIATION_RATIO,
        MIN_DEVIATION_RATIO])
  · exact (h.2.2.2 { demoPost with current_flow_rate := 500, actual_amount := 10 }
      (by rw [demoPost_eq]; norm_num)
      (by
        rw [demoPost_eq]
        norm_num [computedFlow, pyRound2, pyRoundInt,
          calculate_corrected_flow_rate, Rat.floor, MIN_FLOW_RATE,
          MAX_FLOW_RATE])).1

/-- Claim C4 counterexample: a corrected flow rate exactly equal to
MAX_FLOW_RATE is not always classified Valid: against a current flow rate of
30 the deviation ratio is above 3, so the status is UnrealisticDeviation. -/
theorem boundary_flow_rate_not_always_valid :
    classify MAX_FLOW_RATE 30 = some FlowStatus.UnrealisticDeviation ∧
    classify MAX_FLOW_RATE 30 ≠ some FlowStatus.Valid := by
  have h1 : classify MAX_FLOW_RATE 30 = some FlowStatus.UnrealisticDeviation := by
    norm_num [classify, MIN_FLOW_RATE, MAX_FLOW_RATE, MAX_DEVIATION_RATIO,
      MIN_DEVIATION_RATIO]
  exact ⟨h1, by rw [h1]; simp⟩

/-- Claim C4 (amended): a corrected flow rate exactly equal to MIN_FLOW_RATE
or MAX_FLOW_RATE is never classified OutOfBounds, because the bounds check
uses strict comparisons; it is classified Valid whenever the deviation check
also passes. -/
theorem boundary_flow_rate_not_out_of_bounds (cur : ℚ) :
    classify MIN_FLOW_RATE cur ≠ some FlowStatus.OutOfBounds ∧
    classify MAX_FLOW_RATE cur ≠ some FlowStatus.OutOfBounds ∧
    (cur ≠ 0 → MIN_DEVIATION_RATIO ≤ MIN_FLOW_RATE / cur →
      MIN_FLOW_RATE / cur ≤ MAX_DEVIATION_RATIO →
      classify MIN_FLOW_RATE cur = some FlowStatus.Valid) ∧
    (cur ≠ 0 → MIN_DEVIATION_RATIO ≤ MAX_FLOW_RATE / cur →
      MAX_FLOW_RATE / cur ≤ MAX_DEVIATION_RATIO →
      classify MAX_FLOW_RATE cur = some FlowStatus.Valid) := by
  have hmin : ¬ (MIN_FLOW_RATE < MIN_FLOW_RATE ∨ MAX_FLOW_RATE < MIN_FLOW_RATE) := by
    norm_num [MIN_FLOW_RATE, MAX_FLOW_RATE]
  have hmax : ¬ (MAX_FLOW_RATE < MIN_FLOW_RATE ∨ MAX_FLOW_RATE < MAX_FLOW_RATE) := by
    norm_num [MIN_FLOW_RATE, MAX_FLOW_RATE]
  refine ⟨?_, ?_, ?_, ?_⟩
  · rw [classify, if_neg hmin]; split_ifs <;> simp
  · rw [classify, if_neg hmax]; split_ifs <;> simp
  · intro h0 hlo hhi
    rw [classify, if_neg hmin, if_neg h0,
      if_neg (by push_neg; exact ⟨hhi, hlo⟩)]
  · intro h0 hlo hhi
    rw [classify, if_neg hmax, if_neg h0,
      if_neg (by push_neg; exact ⟨hhi, hlo⟩)]

/-- Witness for the amended C4: both boundary values classified Valid at
current flow rates that keep the deviation ratio inside the thresholds, and
the minimum boundary value not OutOfBounds against 30 ml/s. -/
theorem boundary_flow_rate_not_out_of_bounds_witness :
    classify MIN_FLOW_RATE (1/5) = some FlowStatus.Valid ∧
    classify MAX_FLOW_RATE 500 = some FlowStatus.Valid ∧
    classify MIN_FLOW_RATE 30 ≠ some FlowStatus.OutOfBounds :=
  ⟨(boundary_flow_rate_not_out_of_bounds (1/5)).2.2.1 (by norm_num)
      (by norm_num [MIN_FLOW_RATE, MIN_DEVIATION_RATIO])
      (by norm_num [MIN_FLOW_RATE, MAX_DEVIATION_RATIO]),
   (boundary_flow_rate_not_out_of_bounds 500).2.2.2 (by norm_num)
      (by norm_num [MAX_FLOW_RATE, MIN_DEVIATION_RATIO])
      (by norm_num [MAX_FLOW_RATE, MAX_DEVIATION_RATIO]),
   (boundary_flow_rate_not_out_of_bounds 30).1⟩

/-- Claim C5: the deviation warning boundary is exclusive.  A ratio exactly
equal to MAX_DEVIATION_RATIO or MIN_DEVIATION_RATIO yields status Valid, and
UnrealisticDeviation only arises for ratios strictly above 3 or strictly
below 1/2. -/
theorem deviation_boundary_exclusive :
    (∀ c cur : ℚ, MIN_FLOW_RATE ≤ c → c ≤ MAX_FLOW_RATE → cur ≠ 0 →
      (c / cur = MAX_DEVIATION_RATIO ∨ c / cur = MIN_DEVIATION_RATIO) →
      classify c cur = some FlowStatus.Valid) ∧
    (∀ c cur : ℚ, classify c cur = some FlowStatus.UnrealisticDeviation →
      MAX_DEVIATION_RATIO < c / cur ∨ c / cur < MIN_DEVIATION_RATIO) := by
  constructor
  · intro c cur hlo hhi h0 hr
    have hdev : ¬ ( MAX_DEVIATION_RATIO < c / cur ∨ c / cur < MIN_DEVIATION_RATIO) := by
      rcases hr with h | h <;> rw [h] <;>
        norm_num [ MAX_DEVIATION_RATIO, MIN_DEVIATION_RATIO]
    rw [classify, if_neg (by push_neg; exact ⟨hlo, hhi⟩), if_neg h0, if_neg hdev]
  · intro c cur h
    rw [classify] at h
    split_ifs at h with g1 g2 g3
    · exact absurd h (by simp)
    · exact g3
    · exact absurd h (by simp)

/-- Witness for C5: a ratio of exactly 3 (90 over 30) and exactly 1/2
(15 over 30) both classified Valid, and a ratio strictly above 3 recognised
as such by the converse direction. -/
theorem deviation_boundary_exclusive_witness :
    classify 90 30 = some FlowStatus.Valid ∧
    classify 15 30 = some FlowStatus.Valid ∧
    ( MAX_DEVIATION_RATIO < (200:ℚ) / 30 ∨ (200:ℚ) / 30 < MIN_DEVIATION_RATIO) :=
  ⟨deviation_boundary_exclusive.1 90 30 (by norm_num [MIN_FLOW_RATE])
      (by norm_num [MAX_FLOW_RATE]) (by norm_num)
      (Or.inl (by norm_num [ MAX_DEVIATION_RATIO])),
   deviation_boundary_exclusive.1 15 30 (by norm_num [MIN_FLOW_RATE])
      (by norm_num [MAX_FLOW_RATE]) (by norm_num)
      (Or.inr (by norm_num [ MIN_DEVIATION_RATIO])),
   deviation_boundary_exclusive.2 200 30 (by
      norm_num [classify, MIN_FLOW_RATE, MAX_FLOW_RATE, MAX_DEVIATION_RATIO,
        MIN_DEVIATION_RATIO])⟩

/-- Claim C2: a session never commits an OutOfBounds flow rate.  On every
reachable screen on which the accept button can be clicked (visible and
enabled) a successful accept_calibration persists a flow rate within
[MIN_FLOW_RATE, MAX_FLOW_RATE]: the stored calculated flow is in bounds and
every entry of the updated configuration either was already present or
carries that in-bounds value. -/
theorem commit_never_persists_out_of_bounds (s : CalibrationScreen)
    (cfgs cfgs' : List PumpConfig) (hr : Reachable s)
    (hv : s.accept_visible = true) (he : s.accept_enabled = true)
    (hc : accept_calibration s cfgs = (cfgs', AcceptOutcome.accepted)) :
    (MIN_FLOW_RATE ≤ s.calculated_flow ∧ s.calculated_flow ≤ MAX_FLOW_RATE) ∧
    ∀ c ∈ cfgs', c ∈ cfgs ∨
      (MIN_FLOW_RATE ≤ c.volume_flow ∧ c.volume_flow ≤ MAX_FLOW_RATE) := by
  have hb := reachable_accept_safe hr hv he
  refine ⟨hb, ?_⟩
  intro c hcmem
  rw [accept_calibration] at hc
  split_ifs at hc with hg
  · exact absurd hc (by simp)
  · rcases hpi : s.pump_index with _ | i
    · simp only [hpi] at hc
      exact absurd hc (by simp)
    · simp only [hpi] at hc
      split_ifs at hc with hlen
      · exact absurd hc (by simp)
      · injection hc with hconf _
        rw [← hconf] at hcmem
        rcases mem_setVolumeFlow hcmem with hmem | hval
        · exact Or.inl hmem
        · exact Or.inr (by rw [hval]; exact hb)

/-- Witness for C2: on the reachable post-dispense demo screen the accept
button is clickable, the stored flow 30 is in bounds, and accepting writes
30 into the single pump configuration. -/
theorem commit_never_persists_out_of_bounds_witness :
    (MIN_FLOW_RATE ≤ demoPost.calculated_flow ∧
      demoPost.calculated_flow ≤ MAX_FLOW_RATE) ∧
    ∀ c ∈ [({ volume_flow := 30 } : PumpConfig)],
      c ∈ [({ volume_flow := 5 } : PumpConfig)] ∨
      (MIN_FLOW_RATE ≤ c.volume_flow ∧ c.volume_flow ≤ MAX_FLOW_RATE) :=
  commit_never_persists_out_of_bounds demoPost
    [({ volume_flow := 5 } : PumpConfig)] [({ volume_flow := 30 } : PumpConfig)]
    demoPost_reachable (by rw [demoPost_eq]) (by rw [demoPost_eq])
    (by rw [demoPost_eq]; rfl)

/-- Claim C6: a non-positive actual volume entered in the measurement step is
rejected before the flow-rate computation: the stored calculated flow is left
untouched, the display shows the placeholder, the out-of-bounds message is
surfaced, accept is disabled, and the screen stays in POST_DISPENSE so a new
measurement can be entered. -/
theorem nonpositive_measurement_rejected (s : CalibrationScreen) (v : ℚ)
    (hv : v ≤ 0) (hs : s.state = CalibrationState.POST_DISPENSE) :
    step s (Action.recordActual v) =
      some (on_actual_amount_changed { s with actual_amount := v }) ∧
    (on_actual_amount_changed { s with actual_amount := v }).calculated_flow =
      s.calculated_flow ∧
    (on_actual_amount_changed { s with actual_amount := v }).flow_text =
      FlowText.dashes ∧
    (on_actual_amount_changed { s with actual_amount := v }).warning =
      WarningText.flowRateOutOfBounds ∧
    (on_actual_amount_changed { s with actual_amount := v }).accept_enabled =
      false ∧
    (on_actual_amount_changed { s with actual_amount := v }).state =
      CalibrationState.POST_DISPENSE ∧
    ∀ w : ℚ,
      (step (on_actual_amount_changed { s with actual_amount := v })
        (Action.recordActual w)).isSome = true := by
  have heq := handler_eq_of_nonpos (s := { s with actual_amount := v })
    (by simpa using hv)
  have hstate : (on_actual_amount_changed { s with actual_amount := v }).state =
      CalibrationState.POST_DISPENSE := by
    rw [heq]; simpa [show_invalid_flow_rate] using hs
  refine ⟨by simp [step, hs], ?_, ?_, ?_, ?_, hstate, ?_⟩
  · rw [heq]; simp [show_invalid_flow_rate]
  · rw [heq]; simp [show_invalid_flow_rate]
  · rw [heq]; simp [show_invalid_flow_rate]
  · rw [heq]; simp [show_invalid_flow_rate]
  · intro w; simp [step, hstate]

/-- Witness for C6 on the demo screen with an actual volume of -5 ml. -/
theorem nonpositive_measurement_rejected_witness :
    (on_actual_amount_changed { demoPost with actual_amount := -5 }).calculated_flow =
      demoPost.calculated_flow ∧
    (on_actual_amount_changed { demoPost with actual_amount := -5 }).warning =
      WarningText.flowRateOutOfBounds ∧
    (on_actual_amount_changed { demoPost with actual_amount := -5 }).accept_enabled =
      false ∧
    (step (on_actual_amount_changed { demoPost with actual_amount := -5 })
      (Action.recordActual 100)).isSome = true := by
  have h := nonpositive_measurement_rejected demoPost (-5) (by norm_num)
    demoPost_state
  exact ⟨h.2.1, h.2.2.2.1, h.2.2.2.2.1, h.2.2.2.2.2.2 100⟩

/-- Claim C7: a screen is created in PRE_DISPENSE, the dispense action moves
it to POST_DISPENSE, a transition between workflow states happens only
through the dispense action and only in that direction, and POST_DISPENSE is
never left: the state changes from PRE_DISPENSE to POST_DISPENSE exactly
once and never changes back. -/
theorem workflow_state_one_way :
    (∀ (pi : Option ℕ) (cfr : Option ℚ) (pin : Option ℕ) (st : Bool)
       (a0 : ℤ) (ac0 : ℚ) (w0 : WarningText),
       (CalibrationScreen.init pi cfr pin st a0 ac0 w0).state =
         CalibrationState.PRE_DISPENSE) ∧
    (∀ s s' : CalibrationScreen, step s Action.dispense = some s' →
       s'.state = CalibrationState.POST_DISPENSE) ∧
    (∀ (s : CalibrationScreen) (a : Action) (s' : CalibrationScreen),
       step s a = some s' → s'.state ≠ s.state →
       a = Action.dispense ∧ s.state = CalibrationState.PRE_DISPENSE ∧
         s'.state = CalibrationState.POST_DISPENSE) ∧
    (∀ (s : CalibrationScreen) (a : Action) (s' : CalibrationScreen),
       step s a = some s' → s.state = CalibrationState.POST_DISPENSE →
       s'.state = CalibrationState.POST_DISPENSE) := by
  refine ⟨fun _ _ _ _ _ _ _ => rfl, ?_, ?_, fun s a s' h hs => step_state_post h hs⟩
  · intro s s' h
    simp only [step] at h
    split_ifs at h
    injection h with h'; subst h'
    exact output_volume_state s
  · intro s a s' h hne
    cases a with
    | setAmount v =>
      simp only [step] at h
      split_ifs at h
      injection h with h'; subst h'
      exact absurd rfl hne
    | dispense =>
      simp only [step] at h
      split_ifs at h
      injection h with h'; subst h'
      refine ⟨rfl, ?_, output_volume_state s⟩
      rcases hs : s.state with _ | _
      · rfl
      · rw [output_volume_state s, hs] at hne; exact absurd rfl hne
    | recordActual v =>
      simp only [step] at h
      split_ifs at h
      injection h with h'; subst h'
      rw [(handler_preserves _).2.2.2.2.2.1] at hne
      exact absurd rfl hne

/-- Witness for C7: the demo screen starts in PRE_DISPENSE and its dispense
step lands in POST_DISPENSE. -/
theorem workflow_state_one_way_witness :
    demoInit.state = CalibrationState.PRE_DISPENSE ∧
    demoPost.state = CalibrationState.POST_DISPENSE :=
  ⟨workflow_state_one_way.1 (some 0) (some 30) (some 17) false 100 0
      WarningText.empty,
   workflow_state_one_way.2.1 demoInit demoPost demoInit_step⟩

/-- Claim C8: recording the actual volume never changes the workflow state,
and for every positive actual volume it recomputes the stored corrected flow
rate from the current flow rate, target amount and new actual volume, and
recomputes the status (accept enabling and warning text) from that fresh
value; nothing stale survives a recompute. -/
theorem record_actual_volume_recomputes :
    (∀ (s : CalibrationScreen) (v : ℚ),
       (on_actual_amount_changed { s with actual_amount := v }).state = s.state) ∧
    (∀ (s : CalibrationScreen) (v : ℚ), 0 < v →
       (on_actual_amount_changed { s with actual_amount := v }).calculated_flow =
         pyRound2 (calculate_corrected_flow_rate s.current_flow_rate
           (s.amount : ℚ) v) ∧
       (on_actual_amount_changed { s with actual_amount := v }).accept_enabled =
         statusEnabled (classify
           (pyRound2 (calculate_corrected_flow_rate s.current_flow_rate
             (s.amount : ℚ) v)) s.current_flow_rate) ∧
       (on_actual_amount_changed { s with actual_amount := v }).warning =
         statusWarning (classify
           (pyRound2 (calculate_corrected_flow_rate s.current_flow_rate
             (s.amount : ℚ) v)) s.current_flow_rate) s.warning) := by
  constructor
  · intro s v
    exact (handler_preserves { s with actual_amount := v }).2.2.2.2.2.1
  · intro s v hv
    have h := handler_spec (s := { s with actual_amount := v }) (by simpa using hv)
    exact ⟨h.1, h.2.2.1, h.2.1⟩

/-- Witness for C8 on the demo screen with an actual volume of 95 ml: the
state is unchanged and the stored flow is the freshly computed 31.58 ml/s. -/
theorem record_actual_volume_recomputes_witness :
    (on_actual_amount_changed { demoPost with actual_amount := 95 }).state =
      demoPost.state ∧
    (on_actual_amount_changed { demoPost with actual_amount := 95 }).calculated_flow =
      pyRound2 (calculate_corrected_flow_rate demoPost.current_flow_rate
        (demoPost.amount : ℚ) 95) ∧
    pyRound2 (calculate_corrected_flow_rate demoPost.current_flow_rate
        (demoPost.amount : ℚ) 95) = 3158 / 100 := by
  refine ⟨record_actual_volume_recomputes.1 demoPost 95,
    (record_actual_volume_recomputes.2 demoPost 95 (by norm_num)).1, ?_⟩
  rw [demoPost_eq]
  norm_num [pyRound2, pyRoundInt, calculate_corrected_flow_rate, Rat.floor]

/-- Claim C9 counterexample: the stored current flow rate is not strictly
positive for every constructed screen: a negative constructor argument is
truthy in Python, passes through the falsy-or coercion unchanged, and the
screen stores -5. -/
theorem current_flow_rate_not_always_positive :
    (CalibrationScreen.init (some 0) (some (-5)) (some 17) false 100 0
      WarningText.empty).current_flow_rate = -5 ∧
    ¬ (0 < (CalibrationScreen.init (some 0) (some (-5)) (some 17) false 100 0
      WarningText.empty).current_flow_rate) := by
  have h : (CalibrationScreen.init (some 0) (some (-5)) (some 17) false 100 0
      WarningText.empty).current_flow_rate = -5 := by
    norm_num [CalibrationScreen.init, pyOrDefault]
  exact ⟨h, by rw [h]; norm_num⟩

/-- Claim C9 (amended): the stored current flow rate of every constructed
screen is nonzero, never zero: a None or 0.0 constructor argument is
replaced by the default 30.0, every other value passes through, and the
field stays nonzero on every reachable screen, so the deviation-ratio
division of the measurement path never divides by zero. -/
theorem current_flow_rate_never_zero :
    (∀ (pi : Option ℕ) (cfr : Option ℚ) (pin : Option ℕ) (st : Bool)
       (a0 : ℤ) (ac0 : ℚ) (w0 : WarningText),
       (CalibrationScreen.init pi cfr pin st a0 ac0 w0).current_flow_rate ≠ 0) ∧
    (∀ (pi : Option ℕ) (pin : Option ℕ) (st : Bool) (a0 : ℤ) (ac0 : ℚ)
       (w0 : WarningText),
       (CalibrationScreen.init pi none pin st a0 ac0 w0).current_flow_rate = 30 ∧
       (CalibrationScreen.init pi (some 0) pin st a0 ac0 w0).current_flow_rate = 30) ∧
    (∀ s : CalibrationScreen, Reachable s → s.current_flow_rate ≠ 0) := by
  refine ⟨init_current_flow_rate_ne_zero, ?_,
    fun s hr => reachable_current_flow_rate_ne_zero hr⟩
  intro pi pin st a0 ac0 w0
  constructor
  · rfl
  · show pyOrDefault (some 0) 30 = 30
    simp [pyOrDefault]

/-- Witness for C9: a screen built with a negative flow rate still stores a
nonzero value, the None and 0.0 defaults give 30, and the reachable demo
screen has a nonzero current flow rate. -/
theorem current_flow_rate_never_zero_witness :
    (CalibrationScreen.init none (some (-5)) none true 10 0
      WarningText.empty).current_flow_rate ≠ 0 ∧
    (CalibrationScreen.init none none none true 10 0
      WarningText.empty).current_flow_rate = 30 ∧
    (CalibrationScreen.init none (some 0) none true 10 0
      WarningText.empty).current_flow_rate = 30 ∧
    demoInit.current_flow_rate ≠ 0 :=
  ⟨current_flow_rate_never_zero.1 none (some (-5)) none true 10 0
      WarningText.empty,
   (current_flow_rate_never_zero.2.1 none none true 10 0 WarningText.empty).1,
   (current_flow_rate_never_zero.2.1 none none true 10 0 WarningText.empty).2,
   current_flow_rate_never_zero.2.2 demoInit
     (Reachable.init (some 0) (some 30) (some 17) false 100 0 WarningText.empty)⟩

/-- Claim C10: the error paths of accept_calibration are atomic.  Invoked
outside pump mode it reports the pump-mode error, and invoked with a pump
index at or beyond the number of configured pumps it reports the caught
IndexError; in both cases the pump configuration list is returned unchanged,
because the bounds check precedes the volume_flow write. -/
theorem accept_calibration_error_paths_atomic (s : CalibrationScreen)
    (cfgs : List PumpConfig) :
    ((s.pump_mode = false ∨ s.pump_index = none) →
      accept_calibration s cfgs = (cfgs, AcceptOutcome.errorNotPumpMode)) ∧
    (∀ i : ℕ, s.pump_mode = true → s.pump_index = some i → cfgs.length ≤ i →
      accept_calibration s cfgs = (cfgs, AcceptOutcome.errorIndexOutOfRange)) := by
  constructor
  · intro h
    rw [accept_calibration, if_pos h]
  · intro i hm hpi hlen
    rw [accept_calibration, if_neg (by simp [hm, hpi])]
    simp only [hpi]
    rw [if_pos hlen]

/-- Witness for C10: a pump-mode screen addressing pump 5 with a single
configured pump reports the index error and leaves the configuration alone,
and a standalone screen reports the pump-mode error. -/
theorem accept_calibration_error_paths_atomic_witness :
    accept_calibration { demoPost with pump_index := some 5 }
        [({ volume_flow := 1 } : PumpConfig)] =
      ([({ volume_flow := 1 } : PumpConfig)],
        AcceptOutcome.errorIndexOutOfRange) ∧
    accept_calibration
        (CalibrationScreen.init none none none true 100 0 WarningText.empty)
        [({ volume_flow := 1 } : PumpConfig)] =
      ([({ volume_flow := 1 } : PumpConfig)], AcceptOutcome.errorNotPumpMode) :=
  ⟨(accept_calibration_error_paths_atomic
      { demoPost with pump_index := some 5 } [{ volume_flow := 1 }]).2 5
      (by rw [demoPost_eq]) rfl (by norm_num),
   (accept_calibration_error_paths_atomic
      (CalibrationScreen.init none none none true 100 0 WarningText.empty)
      [{ volume_flow := 1 }]).1 (Or.inl rfl)⟩

end Calibration
